import Mathlib

/-!
Shallow embedding of leaanthony/webview2runtime (src/webview2runtime.go).

The module wraps external capabilities: the Windows registry, the
CompareBrowserVersions procedure of WebView2Loader.dll, the MessageBoxW
procedure of user32.dll, the HTTP client, the filesystem and process
execution. Each capability is modelled as an explicit oracle parameter
(a structure of functions or outcome fields), and Go errors are modelled
as `Option GoError`, `none` standing for a nil error.

Two facts of the Go runtime that the embedding bakes in, both documented
in the Go standard library:
  - a second `Close` of an `os.File` returns a non-nil error
    (`os.ErrClosed`); the file counts as closed after the first `Close`
    even when that first call reported an error;
  - `(*syscall.LazyProc).Call` always returns a non-nil error value
    (built from `GetLastError`), so the error it yields is modelled as a
    plain `GoError`, never absent.
Go runs deferred functions last-in-first-out when the surrounding
function returns, after the return values are assigned; a deferred
closure that assigns a named return value overwrites it.
-/

namespace Webview2runtime

/-- Go error values the embedding distinguishes. `errClosed` is the error a
second `Close` of an `os.File` returns (`os.ErrClosed`); `einval` is the
error `syscall.UTF16PtrFromString` returns for a string holding a NUL
byte; `other` wraps an error coming from an external call. -/
inductive GoError where
  | errClosed : GoError
  | einval : GoError
  | other : String → GoError
  deriving DecidableEq, Repr

/-- `syscall.UTF16PtrFromString` fails, with EINVAL, exactly when the
string holds a NUL byte at any location; this predicate mirrors that
check on the character list of the string. -/
def hasNulByte (s : String) : Bool :=
  s.data.any (fun c => c == Char.ofNat 0)

/-- The `Info` struct of webview2runtime.go lines 18-23: all the
information about an installation of the webview2 runtime. -/
structure Info where
  Location : String
  Name : String
  Version : String
  SilentUninstall : String
  deriving DecidableEq, Repr

/-- Oracle for the native CompareBrowserVersions procedure of
WebView2Loader.dll, as used by `Info.IsOlderThan` (lines 28-29, 39). -/
structure CompareEnv where
  /-- Value the procedure writes through its out pointer, as a function of
  the two version strings passed; when the procedure writes nothing the
  oracle returns 9, the value the Go code initialises the variable to. -/
  compareResult : String → String → Int
  /-- Error value `LazyProc.Call` returns; the Go documentation states
  this returned error is always non-nil, so it is a plain `GoError`. -/
  callErr : String → String → GoError

/-- `Info.IsOlderThan` (webview2runtime.go lines 27-44): encodes both
version strings, calls the external comparator, returns the error of the
call when the written result lies outside -1..1, and otherwise reports
whether the result is -1, with a nil error. -/
def IsOlderThan (env : CompareEnv) (i : Info) (requiredVersion : String) :
    Bool × Option GoError :=
  if hasNulByte i.Version then (false, some GoError.einval)
  else if hasNulByte requiredVersion then (false, some GoError.einval)
  else
    let result := env.compareResult i.Version requiredVersion
    if result < -1 ∨ result > 1 then
      (false, some (env.callErr i.Version requiredVersion))
    else
      (result == -1, none)

/-- Oracle for the Windows registry as used by `GetInstalledVersion`. -/
structure Registry where
  /-- Whether `registry.OpenKey(LOCAL_MACHINE, path, QUERY_VALUE)`
  succeeds for the given path. -/
  openOk : String → Bool
  /-- `Key.GetStringValue`: `some` value on success, `none` when the named
  value is missing, unreadable or not a string; in the `none` case the Go
  call returns the empty string together with its error. -/
  getStringValue : String → String → Option String

/-- The registry path of webview2runtime.go line 49, used on every
architecture other than 386. -/
def regkeyDefault : String :=
  "SOFTWARE\\WOW6432Node\\Microsoft\\EdgeUpdate\\Clients\\\x7bF3017226-FE2A-4295-8BDF-00C3A9A7E4C5\x7d"

/-- The registry path of webview2runtime.go line 51, used when
`runtime.GOARCH` is 386. -/
def regkey386 : String :=
  "SOFTWARE\\Microsoft\\EdgeUpdate\\Clients\\\x7bF3017226-FE2A-4295-8BDF-00C3A9A7E4C5\x7d"

/-- The registry path `GetInstalledVersion` reads, as selected by lines
49-52: the default is overwritten by the 386 path when the architecture
is 386. -/
def effectiveRegKey (goarch : String) : String :=
  if goarch == "386" then regkey386 else regkeyDefault

/-- `getKeyValue` (webview2runtime.go lines 69-72): reads a string value
and drops the error, so a missing or unreadable value becomes the empty
string the Go call returned alongside its error. -/
def getKeyValue (reg : Registry) (k : String) (name : String) : String :=
  (reg.getStringValue k name).getD ""

/-- `GetInstalledVersion` (webview2runtime.go lines 48-67): opens the
architecture-dependent key, returns `none` when the key cannot be opened
(cannot open key = not installed), and otherwise populates all four
fields of `Info` through `getKeyValue`. -/
def GetInstalledVersion (reg : Registry) (goarch : String) : Option Info :=
  let regkey := effectiveRegKey goarch
  if reg.openOk regkey then
    some { Location := getKeyValue reg regkey "location",
           Name := getKeyValue reg regkey "name",
           Version := getKeyValue reg regkey "pv",
           SilentUninstall := getKeyValue reg regkey "SilentUninstall" }
  else
    none

/-- Oracle for the native MessageBoxW procedure of user32.dll. -/
structure DialogEnv where
  /-- Button code the native call returns, as a function of caption, title
  and flags. The Go code at lines 154-158 ignores the error values of the
  call, so the dialog itself never fails in the model either. -/
  ret : String → String → Nat → Int

/-- `MessageBox` (webview2runtime.go lines 145-161): encodes caption and
title, returning -1 with the encoding error when either fails, and
otherwise returns the button code of the native call with a nil error. -/
def MessageBox (env : DialogEnv) (caption : String) (title : String)
    (flags : Nat) : Int × Option GoError :=
  if hasNulByte caption then (-1, some GoError.einval)
  else if hasNulByte title then (-1, some GoError.einval)
  else (env.ret caption title flags, none)

/-- `Confirm` (webview2runtime.go lines 125-132): shows an OK/Cancel
message box (flags MB_OKCANCEL = 0x00000001), propagates its error, and
otherwise reports whether the button code equals 1, the OK code. -/
def Confirm (env : DialogEnv) (caption : String) (title : String) :
    Bool × Option GoError :=
  let flags : Nat := 0x00000001
  let r := MessageBox env caption title flags
  match r.2 with
  | some e => (false, some e)
  | none => (r.1 == 1, none)

/-- Outcome of `cmd.Wait()` at webview2runtime.go line 112. -/
inductive WaitResult where
  /-- Wait returned nil: the child ran and exited with status 0. -/
  | ok : WaitResult
  /-- Wait returned an `exec.ExitError` whose `Sys()` is a
  `syscall.WaitStatus` with the given `ExitStatus()`. -/
  | exitStatus : Int → WaitResult
  /-- Wait returned an error that is not an exit-status error: not an
  `exec.ExitError`, or one whose `Sys()` is not a `syscall.WaitStatus`. -/
  | otherError : GoError → WaitResult
  deriving DecidableEq, Repr

/-- Outcomes of the external steps of one run of
`InstallUsingBootstrapper`: `none` is a nil error from the step. -/
structure InstallEnv where
  /-- `os.Create(installer)` at line 83. -/
  createErr : Option GoError
  /-- `http.Get(bootstrapperURL)` at line 90. -/
  getErr : Option GoError
  /-- `io.Copy(out, resp.Body)` at line 97. -/
  copyErr : Option GoError
  /-- Result of the FIRST `out.Close()`; a second `Close` returns
  `os.ErrClosed` per the `os.File` documentation, and the file counts as
  closed after the first `Close` either way. -/
  fileCloseErr : Option GoError
  /-- `resp.Body.Close()` in the deferred closure of line 94. -/
  bodyCloseErr : Option GoError
  /-- `cmd.Start()` at line 109. -/
  startErr : Option GoError
  /-- `cmd.Wait()` at line 112. -/
  waitResult : WaitResult
  deriving DecidableEq, Repr

/-- The deferred closures of `InstallUsingBootstrapper` (lines 87-89 and
94-96), applied to the named return values at function exit. Go runs
defers last-in-first-out, so when the body-close defer is registered it
assigns `err = Body.Close()` first, and the out-close defer assigns
`err = out.Close()` after it: the final error is the result of the
deferred `out.Close()`, and the body-close assignment is dead. The
deferred `out.Close()` returns `os.ErrClosed` when the file was already
closed explicitly (`outClosed`), else the result of the first close. -/
def applyDefers (env : InstallEnv) (bodyDeferRegistered : Bool)
    (outClosed : Bool) (res : Bool) (err0 : Option GoError) :
    Bool × Option GoError :=
  let _errAfterBodyDefer : Option GoError :=
    if bodyDeferRegistered then env.bodyCloseErr else err0
  let errAfterOutDefer : Option GoError :=
    if outClosed then some GoError.errClosed else env.fileCloseErr
  (res, errAfterOutDefer)

/-- `InstallUsingBootstrapper` (webview2runtime.go lines 78-120), with
named return values `(result, err)`. Each `return` statement is followed
by the deferred closures registered so far: the out-close defer after
`os.Create` succeeds (line 87) and the body-close defer after `http.Get`
succeeds (line 94). The file is closed explicitly at line 102 before the
child is launched, so every later return leaves through `applyDefers`
with `outClosed = true`. -/
def InstallUsingBootstrapper (env : InstallEnv) : Bool × Option GoError :=
  match env.createErr with
  | some e => (false, some e)
  | none =>
    match env.getErr with
    | some e => applyDefers env false false false (some e)
    | none =>
      match env.copyErr with
      | some e => applyDefers env true false false (some e)
      | none =>
        match env.fileCloseErr with
        | some e => applyDefers env true true false (some e)
        | none =>
          match env.startErr with
          | some e => applyDefers env true true false (some e)
          | none =>
            match env.waitResult with
            | WaitResult.ok => applyDefers env true true true none
            | WaitResult.exitStatus code =>
                applyDefers env true true (code == 0) none
            | WaitResult.otherError _ => applyDefers env true true true none

/-- A run in which every external step succeeds and the child exits 0. -/
def allOkEnv : InstallEnv :=
  { createErr := none, getErr := none, copyErr := none,
    fileCloseErr := none, bodyCloseErr := none, startErr := none,
    waitResult := WaitResult.ok }

/-- A run in which every step succeeds but the child exits with code 1. -/
def exitOneEnv : InstallEnv :=
  { allOkEnv with waitResult := WaitResult.exitStatus 1 }

/-- A run in which the downloaded installer cannot be spawned. -/
def spawnFailEnv : InstallEnv :=
  { allOkEnv with startErr := some (GoError.other "file missing") }

/-- Comparator oracle that reports the first version older. -/
def cmpOlderEnv : CompareEnv :=
  { compareResult := fun _ _ => -1,
    callErr := fun _ _ => GoError.other "compare call" }

/-- Sample installation record with version 89.0.0.1. -/
def infoSample : Info :=
  { Location := "C:\\WebView2", Name := "WebView2 Runtime",
    Version := "89.0.0.1", SilentUninstall := "" }

/-- Registry oracle on which no key opens. -/
def regAbsent : Registry :=
  { openOk := fun _ => false, getStringValue := fun _ _ => none }

/-- Registry oracle holding only the value named pv. -/
def regSampleA : Registry :=
  { openOk := fun _ => true,
    getStringValue := fun _ n => if n == "pv" then some "90.0.818.66" else none }

/-- Registry oracle agreeing with `regSampleA` on the four values the
code reads, and differing on an unread value name. -/
def regSampleB : Registry :=
  { openOk := fun _ => true,
    getStringValue := fun _ n =>
      if n == "pv" then some "90.0.818.66"
      else if n == "DisplayVersion" then some "unread" else none }

/-- Dialog oracle on which the user presses OK (button code 1). -/
def dlgOkEnv : DialogEnv := { ret := fun _ _ _ => 1 }

/-- Claim C1 records a code bug, witnessed here: in a run in which every
step up to the installer succeeds, the deferred closes overwrite the nil
error of the final return statement, so a child exiting 0 yields
(true, some errClosed) and a child exiting 1 yields
(false, some errClosed) — in neither case the nil error the claim
states. -/
theorem install_exit_status_error_not_nil :
    InstallUsingBootstrapper allOkEnv = (true, some GoError.errClosed)
    ∧ InstallUsingBootstrapper exitOneEnv = (false, some GoError.errClosed) :=
  ⟨rfl, rfl⟩

/-- Claim C2 records a code bug, witnessed here: when the child cannot be
spawned the function does return false with a non-nil error, but that
error is the deferred second-close error rather than the launch error,
and the run that launched and exited 1 returns exactly the same pair, so
the two outcomes the claim requires to be distinct coincide. -/
theorem install_spawn_fail_outcome :
    InstallUsingBootstrapper spawnFailEnv = (false, some GoError.errClosed)
    ∧ InstallUsingBootstrapper spawnFailEnv =
        InstallUsingBootstrapper exitOneEnv :=
  ⟨rfl, rfl⟩

/-- Claim C3: when both version strings encode and the comparator writes
a value in the range -1..1, IsOlderThan returns true exactly when that
value is -1, with a nil error. -/
theorem isOlderThan_in_range (env : CompareEnv) (i : Info) (req : String)
    (h1 : hasNulByte i.Version = false) (h2 : hasNulByte req = false)
    (h3 : -1 ≤ env.compareResult i.Version req)
    (h4 : env.compareResult i.Version req ≤ 1) :
    IsOlderThan env i req = (env.compareResult i.Version req == -1, none) := by
  have hcond : ¬(env.compareResult i.Version req < -1 ∨
      env.compareResult i.Version req > 1) := by omega
  simp [IsOlderThan, h1, h2, hcond]

/-- Concrete run of `isOlderThan_in_range`: installed 89.0.0.1 against
required 90.0.818.66 under a comparator reporting -1. -/
theorem isOlderThan_in_range_witness :
    IsOlderThan cmpOlderEnv infoSample "90.0.818.66" = (true, none) :=
  isOlderThan_in_range cmpOlderEnv infoSample "90.0.818.66" rfl rfl
    (by decide) (by decide)

/-- Claim C4: IsOlderThan returns a non-nil error exactly when a version
string fails UTF-16 encoding (holds a NUL byte) or the comparator result
lies outside the set of -1, 0 and 1; the error in the latter case is the
always-non-nil error value of the external call. -/
theorem isOlderThan_error_iff (env : CompareEnv) (i : Info) (req : String) :
    (IsOlderThan env i req).2 ≠ none ↔
      hasNulByte i.Version = true ∨ hasNulByte req = true ∨
        env.compareResult i.Version req < -1 ∨
        env.compareResult i.Version req > 1 := by
  by_cases h1 : hasNulByte i.Version = true
  · simp [IsOlderThan, h1]
  · by_cases h2 : hasNulByte req = true
    · simp [IsOlderThan, h1, h2]
    · by_cases h3 : env.compareResult i.Version req < -1 ∨
          env.compareResult i.Version req > 1
      · simp [IsOlderThan, h1, h2, h3]
      · simp [IsOlderThan, h1, h2, h3]

/-- Claim C5: GetInstalledVersion returns none when the key cannot be
opened; when it opens, the returned Info has all four fields read
through getKeyValue from that key, and a value that is missing or
unreadable becomes the empty string. -/
theorem getInstalledVersion_absent_or_populated (reg : Registry)
    (goarch : String) :
    (reg.openOk (effectiveRegKey goarch) = false →
      GetInstalledVersion reg goarch = none)
    ∧ (reg.openOk (effectiveRegKey goarch) = true →
      GetInstalledVersion reg goarch =
        some { Location := getKeyValue reg (effectiveRegKey goarch) "location",
               Name := getKeyValue reg (effectiveRegKey goarch) "name",
               Version := getKeyValue reg (effectiveRegKey goarch) "pv",
               SilentUninstall :=
                 getKeyValue reg (effectiveRegKey goarch) "SilentUninstall" })
    ∧ (∀ name, reg.getStringValue (effectiveRegKey goarch) name = none →
        getKeyValue reg (effectiveRegKey goarch) name = "") := by
  refine ⟨fun h => ?_, fun h => ?_, fun name h => ?_⟩
  · simp [GetInstalledVersion, h]
  · simp [GetInstalledVersion, h]
  · simp [getKeyValue, h]

/-- Concrete run of `getInstalledVersion_absent_or_populated`: an
unopenable key yields none. -/
theorem getInstalledVersion_absent_witness :
    GetInstalledVersion regAbsent "amd64" = none :=
  (getInstalledVersion_absent_or_populated regAbsent "amd64").1 rfl

/-- Claim C6: when the underlying message box succeeds, Confirm returns
true exactly when the button code equals the OK code 1, with a nil
error. -/
theorem confirm_true_iff_ok (env : DialogEnv) (caption title : String)
    (h : (MessageBox env caption title 1).2 = none) :
    Confirm env caption title =
      ((MessageBox env caption title 1).1 == 1, none) := by
  simp only [Confirm]
  rw [h]

/-- Concrete run of `confirm_true_iff_ok`: the user presses OK. -/
theorem confirm_true_iff_ok_witness :
    Confirm dlgOkEnv "Install WebView2?" "Setup" = (true, none) :=
  confirm_true_iff_ok dlgOkEnv "Install WebView2?" "Setup" rfl

/-- Claim C7: MessageBox returns a non-nil error exactly when the caption
or the title fails UTF-16 encoding; once both encode, it returns the
button code of the native call with a nil error. -/
theorem messageBox_error_iff (env : DialogEnv) (caption title : String)
    (flags : Nat) :
    ((MessageBox env caption title flags).2 ≠ none ↔
      hasNulByte caption = true ∨ hasNulByte title = true)
    ∧ (hasNulByte caption = false → hasNulByte title = false →
      MessageBox env caption title flags =
        (env.ret caption title flags, none)) := by
  constructor
  · by_cases h1 : hasNulByte caption = true
    · simp [MessageBox, h1]
    · by_cases h2 : hasNulByte title = true
      · simp [MessageBox, h1, h2]
      · simp [MessageBox, h1, h2]
  · intro h1 h2
    simp [MessageBox, h1, h2]

/-- Claim C8: the key GetInstalledVersion reads depends only on the
architecture — 386 selects the non-WOW6432Node EdgeUpdate client key and
every other architecture the WOW6432Node one — and its result depends
only on opening that key and on the four values named location, name,
pv and SilentUninstall read from it: two registries agreeing there give
equal results. -/
theorem getInstalledVersion_key_and_fields :
    effectiveRegKey "386" = regkey386
    ∧ (∀ goarch, goarch ≠ "386" → effectiveRegKey goarch = regkeyDefault)
    ∧ (∀ (goarch : String) (r1 r2 : Registry),
        r1.openOk (effectiveRegKey goarch) = r2.openOk (effectiveRegKey goarch) →
        (∀ n, n = "location" ∨ n = "name" ∨ n = "pv" ∨ n = "SilentUninstall" →
          r1.getStringValue (effectiveRegKey goarch) n =
            r2.getStringValue (effectiveRegKey goarch) n) →
        GetInstalledVersion r1 goarch = GetInstalledVersion r2 goarch) := by
  refine ⟨rfl, fun goarch h => ?_, fun goarch r1 r2 hopen hvals => ?_⟩
  · simp [effectiveRegKey, h]
  · simp only [GetInstalledVersion, getKeyValue]
    rw [hopen, hvals "location" (Or.inl rfl),
      hvals "name" (Or.inr (Or.inl rfl)),
      hvals "pv" (Or.inr (Or.inr (Or.inl rfl))),
      hvals "SilentUninstall" (Or.inr (Or.inr (Or.inr rfl)))]

/-- Concrete run of `getInstalledVersion_key_and_fields`: two registries
differing only on a value name the code never reads give the same
result. -/
theorem getInstalledVersion_key_and_fields_witness :
    GetInstalledVersion regSampleA "arm64" = GetInstalledVersion regSampleB "arm64" :=
  getInstalledVersion_key_and_fields.2.2 "arm64" regSampleA regSampleB rfl
    (fun n h => by rcases h with rfl | rfl | rfl | rfl <;> rfl)

/-- Claim C9: past a successful temp-file creation, the returned error is
determined by the deferred out-close alone — the errors named in the
return statements and the deferred body-close result never reach the
caller. On the paths where the download fails before the explicit close
it is the first-close result; on every path that reaches the explicit
close, the successful download and installer runs included, it is the
second-close error errClosed. -/
theorem install_deferred_close_overwrites_error
    (ge cpe fce bce se : Option GoError) (wr : WaitResult) :
    (InstallUsingBootstrapper
        { createErr := none, getErr := ge, copyErr := cpe,
          fileCloseErr := fce, bodyCloseErr := bce, startErr := se,
          waitResult := wr }).2 =
      (if ge = none ∧ cpe = none then some GoError.errClosed else fce) := by
  cases ge <;> cases cpe <;> cases fce <;> cases se <;> cases wr <;>
    simp [InstallUsingBootstrapper, applyDefers]

/-- Claim C10: when Wait fails with an error that is not an exit-status
error, the function falls through both type assertions and returns a
true result — the run counts as a success and the wait error itself is
not surfaced (the error slot holds the deferred close error instead). -/
theorem install_wait_non_exit_error_true (bce : Option GoError) (e : GoError) :
    InstallUsingBootstrapper
        { createErr := none, getErr := none, copyErr := none,
          fileCloseErr := none, bodyCloseErr := bce, startErr := none,
          waitResult := WaitResult.otherError e } =
      (true, some GoError.errClosed) :=
  rfl

end Webview2runtime
